import Mathlib

/-!
Verification development for the `ai-api-proxy` gateway.

The definitions below are a shallow embedding of the repository's Python
sources (`main.py`, `rate_limiter.py`, `providers.py`).  Machine floats
(`time.time()` timestamps) are modelled as exact integers (`Int`), the
percentage computation of `usage_gap_exceeded` as exact rationals, Python
dicts (insertion ordered) as association lists, and fallible code as
`Except`/`Option`.  Each call to `time.time()` inside one request is
collapsed to a single instant `now`; sequences of requests take a list of
call times.
-/

namespace AiApiProxy

/-- Association-list lookup with a default, modelling Python `dict`
access with `defaultdict` semantics: absent keys read as the default. -/
def lookupD {α : Type} : List (String × α) → String → α → α
  | [], _, d => d
  | (k', v') :: rest, k, d => if k' = k then v' else lookupD rest k d

/-- Association-list update, modelling Python `dict` assignment: an
existing key is overwritten in place, a new key is appended at the end
(dict insertion order). -/
def setA {α : Type} : List (String × α) → String → α → List (String × α)
  | [], k, v => [(k, v)]
  | (k', v') :: rest, k, v =>
      if k' = k then (k, v) :: rest else (k', v') :: setA rest k v

/-- Models `request_counts[provider][key] += 1` on a `defaultdict(int)`:
an absent key starts from 0. -/
def incr (l : List (String × Nat)) (k : String) : List (String × Nat) :=
  setA l k (lookupD l k 0 + 1)

/-- Models the lazy pruning `[t for t in window if t > now - length]`
(main.py lines 49/58, rate_limiter.py lines 55/61): keep exactly the
timestamps strictly greater than the cutoff. -/
def pruneWindow (cutoff : Int) (w : List Int) : List Int :=
  w.filter (fun t => cutoff < t)

/-- Per-provider limit settings, in the field order of the dict built in
main.py lines 31-35: `max_request_day`, `max_token_min`,
`max_request_min`.  `max_token_min` is carried but never enforced
(main.py lines 54-55). -/
structure Settings where
  maxRequestDay : Nat
  maxTokenMin : Nat
  maxRequestMin : Nat
deriving DecidableEq, Repr

/-- State of one `(provider, key)` in the `RateLimiter` class
(rate_limiter.py): the two sliding windows
`rate_limit_windows["req_min:p:k"]` / `["req_day:p:k"]`, the lifetime
counter `request_counts[p][k]`, and a mirror of the last state flushed by
`save_data` (the parts of the JSON file relevant to this key). -/
structure TrackerState where
  reqMin : List Int
  reqDay : List Int
  count : Nat
  persisted : List Int × List Int × Nat
deriving DecidableEq, Repr

/-- Models `RateLimiter.save_data` (rate_limiter.py lines 41-48): a full
serialize-and-overwrite of the backing store. -/
def saveData (st : TrackerState) : TrackerState :=
  { st with persisted := (st.reqMin, st.reqDay, st.count) }

/-- Models `RateLimiter.is_rate_limited` (rate_limiter.py lines 50-68);
`is_rate_limited` in main.py lines 43-64 is the same logic minus the
`save_data` call.  Returns `(limited, new_state)`; `limited = true` means
the request is denied.  Note the order of effects in the source: the
minute window is pruned-and-appended *before* the day-window check runs,
so a day-window denial still rewrites the minute window. -/
def isRateLimited (s : Settings) (now : Int) (st : TrackerState) :
    Bool × TrackerState :=
  let reqMinW := pruneWindow (now - 60) st.reqMin
  if s.maxRequestMin ≤ reqMinW.length then (true, st)
  else
    let st1 : TrackerState := { st with reqMin := reqMinW ++ [now] }
    let reqDayW := pruneWindow (now - 86400) st1.reqDay
    if s.maxRequestDay ≤ reqDayW.length then (true, st1)
    else
      (false, saveData { st1 with reqDay := reqDayW ++ [now], count := st1.count + 1 })

/-- Runs a sequence of admission checks at the given call times,
threading the tracker state. -/
def runCalls (s : Settings) : List Int → TrackerState → TrackerState
  | [], st => st
  | t :: ts, st => runCalls s ts (isRateLimited s t st).2

/-- Models the forced exhaustion performed by `update_rate_limits`
(providers.py line 31): the day window is overwritten with
`max_request_day` copies of the current time; nothing else, and in
particular not the persisted file, is touched. -/
def forceExhaust (n : Nat) (now : Int) (st : TrackerState) : TrackerState :=
  { st with reqDay := List.replicate n now }

/-- Settings used in the C3 analysis: `max_request_day = 1`,
`max_request_min = 2`. -/
def c3Settings : Settings := ⟨1, 150000, 2⟩

/-- Tracker state used in the C3 analysis: empty minute window, a full
day window (one fresh timestamp), both already persisted. -/
def c3State : TrackerState := ⟨[], [100], 0, ([], [100], 0)⟩

/-- Per-provider slice of main.py's module-level mutable state (lines
22-26): `request_counts[provider]` (insertion-ordered, `defaultdict`),
and the window families `rate_limit_windows["req_min:provider:key"]` /
`["req_day:provider:key"]`, keyed here by credential. -/
structure ProviderState where
  counts : List (String × Nat)
  minWindows : List (String × List Int)
  dayWindows : List (String × List Int)
deriving DecidableEq, Repr

/-- Models `is_rate_limited(provider, key)` of main.py lines 43-64 for a
fixed provider: prune-and-check the minute window, write it back, then
prune-and-check the day window, write it back and bump the lifetime
counter.  This revision has no persistence call. -/
def isRateLimitedFor (s : Settings) (now : Int) (key : String) (st : ProviderState) :
    Bool × ProviderState :=
  let reqMinW := pruneWindow (now - 60) (lookupD st.minWindows key [])
  if s.maxRequestMin ≤ reqMinW.length then (true, st)
  else
    let st1 : ProviderState :=
      { st with minWindows := setA st.minWindows key (reqMinW ++ [now]) }
    let reqDayW := pruneWindow (now - 86400) (lookupD st1.dayWindows key [])
    if s.maxRequestDay ≤ reqDayW.length then (true, st1)
    else
      (false,
        { st1 with
            dayWindows := setA st1.dayWindows key (reqDayW ++ [now]),
            counts := incr st1.counts key })

/-- Python `max` over a nonempty list (0 for the empty list, which every
caller rules out by a length guard). -/
def listMax : List Nat → Nat
  | [] => 0
  | x :: xs => xs.foldl Nat.max x

/-- Python `min` over a nonempty list (0 for the empty list). -/
def listMin : List Nat → Nat
  | [] => 0
  | x :: xs => xs.foldl Nat.min x

/-- Models `usage_gap_exceeded(provider)` (main.py lines 71-81) on the
provider's `request_counts` table.  The float comparison
`((max_val - min_val) / max_val) * 100 > gap` with an integer percentage
threshold `gap` (`model_usage_gap_percentage`, default 5) is modelled by
the exact cross-multiplied comparison
`(max_val - min_val) * 100 > gap * max_val`, which is equivalent since
the `max_val = 0` case is guarded out. -/
def usageGapExceeded (g : Nat) (counts : List (String × Nat)) : Bool :=
  let values := counts.map Prod.snd
  if values.length < 2 then false
  else
    let maxVal := listMax values
    let minVal := listMin values
    if maxVal = 0 then false
    else decide ((maxVal - minVal) * 100 > g * maxVal)

/-- Models the key-selection loop of `proxy_chat` (main.py lines
104-113).  `fuel` is the loop's iteration count `len(provider_configs)`
(the number of configured *providers*, not the pool size); `cursor` is
the position of the `itertools.cycle` in `key_pools[provider]`, so
`next(...)` yields `keys[cursor % keys.length]` and advances the cursor.
A key is returned when `is_rate_limited` admits it and
`usage_gap_exceeded` then passes; `none` models the `for`-`else` branch,
which answers HTTP 429 (line 111).  All calls within one request share
one instant `now`. -/
def selectLoop (g : Nat) (s : Settings) (now : Int) (keys : List String) :
    Nat → Nat → ProviderState → Option String × (Nat × ProviderState)
  | 0, cursor, st => (none, (cursor, st))
  | fuel + 1, cursor, st =>
    let key := keys.getD (cursor % keys.length) ""
    let r := isRateLimitedFor s now key st
    if r.1 then selectLoop g s now keys fuel (cursor + 1) r.2
    else if usageGapExceeded g r.2.counts then selectLoop g s now keys fuel (cursor + 1) r.2
    else (some key, (cursor + 1, r.2))

/-- Shorthand for "this credential currently fails the admission check in
this state". -/
def deniesAdmission (s : Settings) (now : Int) (key : String) (st : ProviderState) : Bool :=
  (isRateLimitedFor s now key st).1

/-- Modelled from the spec: the "least-used" fast path of spec section
4.3 step 1 — the credential with the lowest lifetime request counter,
ties broken by pool iteration order (first encountered).  main.py
contains no code for this step; this definition exists only to compare
the spec's selection policy against the code's actual scan. -/
def specLeastUsedKey (keys : List String) (counts : List (String × Nat)) : Option String :=
  match keys with
  | [] => none
  | k :: ks => some (ks.foldl (fun best k' =>
      if lookupD counts k' 0 < lookupD counts best 0 then k' else best) k)

/-- Default per-provider limits of main.py lines 32-34: 1500 requests per
day, 150000 tokens per minute, 15 requests per minute. -/
def mainSettings : Settings := ⟨1500, 150000, 15⟩

/-- Settings for the C2 analysis: one request per day allowed. -/
def c2Settings : Settings := ⟨1, 150000, 15⟩

/-- State for the C2 analysis: key `k1` has a full (fresh) day window,
key `k2` is untouched. -/
def c2State : ProviderState := ⟨[], [], [("k1", [100])]⟩

/-- State for the C6 analysis: two admissible keys whose lifetime
counters are 100 and 98; the least-used key is `b`, while the pool
cursor points at `a`. -/
def c6State : ProviderState := ⟨[("a", 100), ("b", 98)], [], []⟩

/-- State for the C7 analysis: two admissible keys with lifetime
counters 100 and 0 (the claim's scenario). -/
def c7State : ProviderState := ⟨[("a", 100), ("b", 0)], [], []⟩

/-- Models Python `str.lower()`, adequate for the ASCII error texts and
patterns involved. -/
def strToLower (s : String) : String := ⟨s.data.map Char.toLower⟩

/-- Checks that a character pattern occurs at the head of the text. -/
def isPrefixOfCh : List Char → List Char → Bool
  | [], _ => true
  | _ :: _, [] => false
  | a :: as, b :: bs => (a == b) && isPrefixOfCh as bs

/-- Checks that a character pattern occurs contiguously somewhere in the
text — the semantics of `re.search` for a literal pattern. -/
def containsSub (pat : List Char) : List Char → Bool
  | [] => pat.isEmpty
  | c :: rest => isPrefixOfCh pat (c :: rest) || containsSub pat rest

/-- String wrapper of `containsSub`. -/
def strContains (hay pat : String) : Bool := containsSub pat.toList hay.toList

/-- Models the scan of `QUOTA_ERROR_PATTERNS` (providers.py lines 10-21)
by `update_rate_limits` (lines 25-27): `re.search` of each pattern
against `error_msg.lower()`.  The only non-literal pattern,
`"requests per (minute|day) exceeded"`, is expanded into its two
alternatives; an unknown provider has no patterns (`dict.get` default).
The returned Bool is whether some pattern matched. -/
def quotaPatternMatch (provider errorMsg : String) : Bool :=
  let m := strToLower errorMsg
  if provider = "openrouter" then
    strContains m "rate limit exceeded" || strContains m "quota exceeded"
      || strContains m "requests per minute exceeded"
      || strContains m "requests per day exceeded"
  else if provider = "gemini" then
    strContains m "quota exceeded" || strContains m "resource exhausted"
      || strContains m "rate limit exceeded"
  else false

/-- Composite window key `"req_day:<provider>:<key>"` (providers.py
line 29). -/
def dayKey (p k : String) : String := "req_day:" ++ p ++ ":" ++ k

/-- The rate-limiter object `update_rate_limits` dereferences: its
`rate_limit_settings` table and its `rate_limit_windows` dict, keyed by
composite strings. -/
structure LimiterHandle where
  settings : List (String × Settings)
  windows : List (String × List Int)
deriving DecidableEq, Repr

/-- Models `update_rate_limits(provider, key, error_msg, rate_limiter)`
(providers.py lines 23-33): on the first matching pattern the
credential's day window is overwritten with `max_request_day` copies of
`now` and `True` is returned; otherwise `False` and no state change.
(Looking up an unconfigured provider in `rate_limit_settings` would be a
Python KeyError; it is modelled with default limits 0 and the theorems
only use configured providers.) -/
def updateRateLimits (provider key errorMsg : String) (now : Int) (rl : LimiterHandle) :
    Bool × LimiterHandle :=
  if quotaPatternMatch provider errorMsg then
    (true,
      { rl with windows := setA rl.windows (dayKey provider key) (List.replicate (lookupD rl.settings provider ⟨0, 0, 0⟩).maxRequestDay now) })
  else (false, rl)

/-- Models the failure path of `call_openrouter_openai_compatible` /
`call_gemini_openai_compatible` in providers.py (lines 173-181 and
216-224): with a rate limiter supplied, a quota-classified error answers
HTTP 429 after the forced exhaustion; any other error — or a missing
rate limiter, the parameter's default — answers HTTP 500.  Returns the
status code and the resulting limiter state. -/
def providersDispatchFailure (provider key errorMsg : String) (now : Int) :
    Option LimiterHandle → Nat × Option LimiterHandle
  | some rl =>
    let r := updateRateLimits provider key errorMsg now rl
    if r.1 then (429, some r.2) else (500, some r.2)
  | none => (500, none)

/-- Models the failure path of main.py's own
`call_openrouter_openai_compatible` / `call_gemini_openai_compatible`
(lines 144-146 and 159-161) — the functions `proxy_chat` actually
dispatches through: every backend error is logged and answered with
HTTP 500, and the rate-limiter state is never consulted or changed. -/
def mainDispatchFailure (_provider _key _errorMsg : String) (rl : LimiterHandle) :
    Nat × LimiterHandle :=
  (500, rl)

/-- Limiter handle for the C5 analysis: one configured provider with a
daily ceiling of 3 and no windows yet. -/
def c5Handle : LimiterHandle := ⟨[("openrouter", ⟨3, 150000, 15⟩)], []⟩

/-- Lowercase hex digit, as in the `\uXXXX` escapes of `json.dumps`. -/
def hexDig (n : Nat) : Char :=
  if n < 10 then Char.ofNat (48 + n) else Char.ofNat (87 + n)

/-- Four lowercase hex digits. -/
def hex4 (n : Nat) : String :=
  ⟨[hexDig (n / 4096 % 16), hexDig (n / 256 % 16), hexDig (n / 16 % 16), hexDig (n % 16)]⟩

/-- Escape of one character as in CPython `json.dumps` with its default
`ensure_ascii=True`: two-character escapes for the quote, backslash and
common control characters, `\uXXXX` for the other control or non-ASCII
characters (a surrogate pair above U+FFFF), the character itself
otherwise. -/
def jsonEscChar (c : Char) : String :=
  if c = '"' then "\\\""
  else if c = '\\' then "\\\\"
  else if c = '\n' then "\\n"
  else if c = '\r' then "\\r"
  else if c = '\t' then "\\t"
  else if c.toNat = 8 then "\\b"
  else if c.toNat = 12 then "\\f"
  else if c.toNat < 32 || 127 ≤ c.toNat then
    if c.toNat < 65536 then "\\u" ++ hex4 c.toNat
    else
      "\\u" ++ hex4 (55296 + (c.toNat - 65536) / 1024)
        ++ "\\u" ++ hex4 (56320 + (c.toNat - 65536) % 1024)
  else ⟨[c]⟩

/-- JSON string literal as `json.dumps` renders it. -/
def jsonString (s : String) : String :=
  "\"" ++ String.join (s.data.map jsonEscChar) ++ "\""

/-- One tool-call delta as read by `format_stream_chunk` (providers.py
lines 74-81): `tc.index`, `tc.id`, `tc.function.name`,
`tc.function.arguments`. -/
structure ToolCall where
  index : Nat
  id : String
  name : String
  args : String
deriving DecidableEq, Repr

/-- One provider-native stream chunk as inspected by
`format_stream_chunk`: either a malformed chunk (missing or empty
`choices`, or an empty delta — the branches that raise ValueError), or a
delta carrying `choices[0].index`, the optional `content` text and the
`tool_calls` list. -/
inductive Chunk where
  | malformed : Chunk
  | delta (index : Nat) (content : Option String) (tools : List ToolCall) : Chunk
deriving DecidableEq, Repr

/-- The terminal sentinel frame emitted in the `finally` block
(providers.py line 140). -/
def doneFrame : String := "data: [DONE]\n\n"

/-- The SSE keep-alive comment frame (providers.py lines 122 and 130). -/
def keepaliveFrame : String := ":\n\n"

/-- The timeout error frame (providers.py line 108): `json.dumps`
applied to `{'error': 'Stream timeout'}`. -/
def timeoutFrame : String := "data: \x7b" ++ "\"error\": \"Stream timeout\"\x7d\n\n"

/-- A content frame as built in providers.py lines 56-62:
`f"data: {json.dumps(chunk_data)}\n\n"` for
`chunk_data = {"choices": [{"index": i, "delta": {"content": s}}]}` with
`json.dumps`'s default separators.  The leading `"data: {"` is split off
so that proofs can inspect the frame head. -/
def contentFrame (i : Nat) (s : String) : String :=
  "data: \x7b" ++ ("\"choices\": [\x7b\"index\": " ++ (toString i ++ (", \"delta\": \x7b\"content\": " ++ (jsonString s ++ "\x7d\x7d]\x7d\n\n"))))

/-- One entry of the `tool_calls` array (providers.py lines 74-82); the
`"type": "function"` field is the fixed string the code inserts. -/
def toolCallJson (tc : ToolCall) : String :=
  "\x7b\"index\": " ++ toString tc.index ++ ", \"id\": " ++ jsonString tc.id
    ++ ", \"type\": \"function\", \"function\": \x7b\"name\": " ++ jsonString tc.name
    ++ ", \"arguments\": " ++ jsonString tc.args ++ "\x7d\x7d"

/-- A tool-call frame as built in providers.py lines 70-86. -/
def toolFrame (i : Nat) (tcs : List ToolCall) : String :=
  "data: \x7b" ++ ("\"choices\": [\x7b\"index\": " ++ (toString i ++ (", \"delta\": \x7b\"tool_calls\": [" ++ (String.intercalate ", " (tcs.map toolCallJson) ++ "]\x7d\x7d]\x7d\n\n"))))

/-- Models `format_stream_chunk` (providers.py lines 35-93): a malformed
chunk raises (`Except.error`); a delta with non-empty (truthy) content
returns a content frame; otherwise a delta with a non-empty `tool_calls`
list returns a tool-call frame; otherwise the function falls off the end
and returns Python `None` (`Except.ok none`). -/
def formatStreamChunk : Chunk → Except Unit (Option String)
  | .malformed => .error ()
  | .delta i (some s) tools =>
    if s = "" then
      if tools.isEmpty then .ok none else .ok (some (toolFrame i tools))
    else .ok (some (contentFrame i s))
  | .delta i none tools =>
    if tools.isEmpty then .ok none else .ok (some (toolFrame i tools))

/-- Models the `async for` loop of `stream_response` (providers.py lines
101-135) over the remaining source chunks, each tagged with the
`time.time()` at which it arrives; `lastYield` is `last_yield_time`.
Branches in source order: the 300 s total-timeout check (yield the error
frame, `break`); a formatted frame (yield it, update `lastYield`); a
`None` format result (yield a keep-alive only if more than 5 s have
passed); a chunk error (after the same optional keep-alive, the
handler's `isinstance(chunk_error, httpx.ReadError)` check raises
`NameError` because providers.py never imports `httpx`, which escapes
the loop and is swallowed by the outer `except` — the relay stops
pulling from the source). -/
def relayGo : List (Int × Chunk) → Int → List String
  | [], _ => []
  | (t, c) :: rest, lastYield =>
    if 300 < t - lastYield then [timeoutFrame]
    else
      match formatStreamChunk c with
      | .ok (some f) => f :: relayGo rest t
      | .ok none =>
        if 5 < t - lastYield then keepaliveFrame :: relayGo rest t
        else relayGo rest lastYield
      | .error _ => if 5 < t - lastYield then [keepaliveFrame] else []

/-- Models `stream_response` (providers.py lines 95-140): the loop's
output followed by the sentinel yielded in `finally`.  `start` is
`time.time()` at generator start; `sourceRaises` records whether the
source sequence ends by raising instead of ending normally — the outer
`except Exception` swallows the error either way, so the parameter does
not change the output and the theorems can quantify over it. -/
def streamResponse (start : Int) (items : List (Int × Chunk)) (_sourceRaises : Bool) :
    List String :=
  relayGo items start ++ [doneFrame]

/-- Models `get_provider_from_model` (main.py lines 66-69):
`model.startswith("gemini")` is the character-level prefix test. -/
def getProviderFromModel (m : String) : String :=
  if isPrefixOfCh "gemini".data m.data then "gemini" else "openrouter"

/-- The whole mutable selection state of main.py: one `ProviderState`
per provider name that `get_provider_from_model` can produce, plus the
two pool cursors of `key_pools`. -/
structure SysState where
  orState : ProviderState
  gemState : ProviderState
  orCursor : Nat
  gemCursor : Nat
deriving DecidableEq, Repr

/-- Reads the per-provider state for a provider name. -/
def getPS (st : SysState) (p : String) : ProviderState :=
  if p = "gemini" then st.gemState else st.orState

/-- Writes the per-provider state for a provider name. -/
def setPS (st : SysState) (p : String) (ps : ProviderState) : SysState :=
  if p = "gemini" then { st with gemState := ps } else { st with orState := ps }

/-- Reads the pool cursor for a provider name. -/
def cursorOf (st : SysState) (p : String) : Nat :=
  if p = "gemini" then st.gemCursor else st.orCursor

/-- Writes the pool cursor for a provider name. -/
def setCursor (st : SysState) (p : String) (c : Nat) : SysState :=
  if p = "gemini" then { st with gemCursor := c } else { st with orCursor := c }

/-- The key list of `key_pools[p]`: main.py lines 28-36 assign
`itertools.cycle(entry["key"])` for each config entry in order, so a
later entry for the same provider wins. -/
def keysOfProvider (cfgs : List (String × List String)) (p : String) : List String :=
  cfgs.foldl (fun acc e => if e.1 = p then e.2 else acc) []

/-- Models the innermost loop of `select_next_available_model` (main.py
lines 127-130): try each key of one config entry; an admitted key whose
usage-gap check passes ends the search.  Failed admissions and
gap-rejected admissions both leave their state mutations behind and
continue. -/
def tryKeys (p : String) (s : Settings) (g : Nat) (now : Int) :
    List String → SysState → Bool × SysState
  | [], st => (false, st)
  | k :: ks, st =>
    let r := isRateLimitedFor s now k (getPS st p)
    let st' := setPS st p r.2
    if !r.1 && !(usageGapExceeded g r.2.counts) then (true, st')
    else tryKeys p s g now ks st'

/-- Models the middle loop of `select_next_available_model` (main.py
lines 125-130): scan the config entries whose provider matches. -/
def tryCfgs (p : String) (s : Settings) (g : Nat) (now : Int) :
    List (String × List String) → SysState → Bool × SysState
  | [], st => (false, st)
  | (name, ks) :: rest, st =>
    if name = p then
      match tryKeys p s g now ks st with
      | (true, st') => (true, st')
      | (false, st') => tryCfgs p s g now rest st'
    else tryCfgs p s g now rest st

/-- The per-provider settings table restricted to the two derivable
provider names. -/
def settingsFor (sOr sGem : Settings) (p : String) : Settings :=
  if p = "gemini" then sGem else sOr

/-- Models `select_next_available_model` (main.py lines 122-131): walk
the `auto_models` preference list; for each model derive its provider
and return the model as soon as some key of that provider is admitted
and passes the usage-gap check.  Every admission attempt mutates the
shared state, whether or not the model is returned. -/
def selectNextAvailableModel (cfgs : List (String × List String)) (g : Nat)
    (sOr sGem : Settings) (now : Int) :
    List String → SysState → Option String × SysState
  | [], st => (none, st)
  | m :: ms, st =>
    let p := getProviderFromModel m
    match tryCfgs p (settingsFor sOr sGem p) g now cfgs st with
    | (true, st') => (some m, st')
    | (false, st') => selectNextAvailableModel cfgs g sOr sGem now ms st'

/-- Models the auto-model path of `proxy_chat` (main.py lines 96-113):
resolve `"auto-model"` through `select_next_available_model` — which
already runs admission checks — then run the key-selection loop for the
resolved model's provider, which runs the admission check again.
Returns the resolved model and selected key (`none` models the 429
answers of lines 99 and 111). -/
def autoFlow (cfgs : List (String × List String)) (g : Nat) (sOr sGem : Settings)
    (now : Int) (models : List String) (st : SysState) :
    Option (String × String) × SysState :=
  match selectNextAvailableModel cfgs g sOr sGem now models st with
  | (none, st') => (none, st')
  | (some m, st') =>
    let p := getProviderFromModel m
    let r := selectLoop g (settingsFor sOr sGem p) now (keysOfProvider cfgs p)
      cfgs.length (cursorOf st' p) (getPS st' p)
    match r.1 with
    | some k => (some (m, k), setCursor (setPS st' p r.2.2) p r.2.1)
    | none => (none, setCursor (setPS st' p r.2.2) p r.2.1)

/-- The empty system state: no requests recorded, cursors at the pool
heads. -/
def emptySys : SysState := ⟨⟨[], [], []⟩, ⟨[], [], []⟩, 0, 0⟩

/-! ## Theorems -/

theorem isRateLimited_reqMin_le (s : Settings) (now : Int) (st : TrackerState)
    (h : st.reqMin.length ≤ s.maxRequestMin) :
    ((isRateLimited s now st).2).reqMin.length ≤ s.maxRequestMin := by
  by_cases h1 : s.maxRequestMin ≤ (pruneWindow (now - 60) st.reqMin).length
  · rw [isRateLimited]
    simp only [if_pos h1]
    exact h
  · by_cases h2 : s.maxRequestDay ≤ (pruneWindow (now - 86400) st.reqDay).length
    · rw [isRateLimited]
      simp [h1, h2]
      omega
    · rw [isRateLimited]
      simp [h1, h2, saveData]
      omega

theorem runCalls_reqMin_le (s : Settings) (times : List Int) (st : TrackerState)
    (h : st.reqMin.length ≤ s.maxRequestMin) :
    (runCalls s times st).reqMin.length ≤ s.maxRequestMin := by
  induction times generalizing st with
  | nil => simpa [runCalls] using h
  | cons t ts ih =>
    rw [runCalls]
    exact ih _ (isRateLimited_reqMin_le s t st h)

/-- C1: the admission check enforces both sliding-window ceilings.  A
call made when the trailing-60-second window already holds
`max_request_min` (or more) timestamps is denied; a call made when the
trailing-86400-second window already holds `max_request_day` (or more)
timestamps is denied; and across any sequence of calls the stored minute
window's length never exceeds `max_request_min`. -/
theorem c1_sliding_window_ceilings (s : Settings) (now : Int) (st : TrackerState)
    (times : List Int) (hbound : st.reqMin.length ≤ s.maxRequestMin) :
    (s.maxRequestMin ≤ (pruneWindow (now - 60) st.reqMin).length →
      (isRateLimited s now st).1 = true)
    ∧ (s.maxRequestDay ≤ (pruneWindow (now - 86400) st.reqDay).length →
      (isRateLimited s now st).1 = true)
    ∧ (runCalls s times st).reqMin.length ≤ s.maxRequestMin := by
  refine ⟨?_, ?_, runCalls_reqMin_le s times st hbound⟩
  · intro h1
    rw [isRateLimited]
    simp [h1]
  · intro h2
    rw [isRateLimited]
    split
    · rfl
    · simp [h2]

theorem c1_sliding_window_ceilings_witness :
    ([90, 95, 99] : List Int).length ≤ 3
    ∧ (runCalls ⟨1500, 150000, 3⟩ [101, 102, 103]
        ⟨[90, 95, 99], [], 0, ([], [], 0)⟩).reqMin.length ≤ 3 :=
  ⟨by decide,
   (c1_sliding_window_ceilings ⟨1500, 150000, 3⟩ 100 ⟨[90, 95, 99], [], 0, ([], [], 0)⟩
      [101, 102, 103] (by decide)).2.2⟩

/-- C3 counterexample: with `max_request_min = 2`, `max_request_day = 1`,
an empty minute window and a full day window, the admission check at time
100 is denied, yet the minute window has changed (the current timestamp
was appended before the day check ran).  This refutes the claim that a
denial has no side effects at all. -/
theorem c3_counterexample :
    (isRateLimited c3Settings 100 c3State).1 = true
    ∧ ((isRateLimited c3Settings 100 c3State).2).reqMin ≠ c3State.reqMin := by
  decide

/-- C3 amended: a denial leaves the day window, the lifetime counter and
the persisted state unchanged; a denial by the *minute* window leaves the
whole state unchanged; but a denial by the day window has already pruned
the minute window and appended the current timestamp to it. -/
theorem c3_amended_denial_effects (s : Settings) (now : Int) (st : TrackerState)
    (h : (isRateLimited s now st).1 = true) :
    ((isRateLimited s now st).2).reqDay = st.reqDay
    ∧ ((isRateLimited s now st).2).count = st.count
    ∧ ((isRateLimited s now st).2).persisted = st.persisted
    ∧ (s.maxRequestMin ≤ (pruneWindow (now - 60) st.reqMin).length →
        (isRateLimited s now st).2 = st) := by
  by_cases h1 : s.maxRequestMin ≤ (pruneWindow (now - 60) st.reqMin).length
  · rw [isRateLimited]
    simp [h1]
  · by_cases h2 : s.maxRequestDay ≤ (pruneWindow (now - 86400) st.reqDay).length
    · rw [isRateLimited]
      simp [h1, h2]
    · rw [isRateLimited] at h
      simp [h1, h2] at h

theorem c3_amended_denial_effects_witness :
    (isRateLimited c3Settings 100 c3State).1 = true
    ∧ ((isRateLimited c3Settings 100 c3State).2).persisted = c3State.persisted :=
  ⟨by decide, (c3_amended_denial_effects c3Settings 100 c3State (by decide)).2.2.1⟩

/-- C4: forcing exhaustion overwrites the day window with exactly `n`
copies of the current time; with `max_request_day = n` the admission
check immediately afterwards is denied; and at any time strictly more
than 86400 seconds later (with a minute window of past timestamps and
positive ceilings) the admission check accepts the key again. -/
theorem c4_force_exhaust (s : Settings) (now now' : Int) (st : TrackerState) (n : Nat)
    (hN : s.maxRequestDay = n) (hn : 0 < n) (hmin : 0 < s.maxRequestMin)
    (hage : now + 86400 < now') (hpast : ∀ t ∈ st.reqMin, t ≤ now) :
    (forceExhaust n now st).reqDay = List.replicate n now
    ∧ (isRateLimited s now (forceExhaust n now st)).1 = true
    ∧ (isRateLimited s now' (forceExhaust n now st)).1 = false := by
  refine ⟨rfl, ?_, ?_⟩
  · by_cases h1 : s.maxRequestMin ≤
        (pruneWindow (now - 60) (forceExhaust n now st).reqMin).length
    · rw [isRateLimited]
      simp [h1]
    · have hkeep : pruneWindow (now - 86400) (List.replicate n now) = List.replicate n now := by
        unfold pruneWindow
        rw [List.filter_eq_self]
        intro a ha
        have ha' := List.eq_of_mem_replicate ha
        subst ha'
        simp only [decide_eq_true_eq]
        omega
      rw [isRateLimited]
      simp [forceExhaust, hkeep, hN, h1]
      split <;> rfl
  · have hminW : pruneWindow (now' - 60) st.reqMin = [] := by
      unfold pruneWindow
      rw [List.filter_eq_nil_iff]
      intro a ha
      have := hpast a ha
      simp only [decide_eq_true_eq, not_lt]
      omega
    have hdayW : pruneWindow (now' - 86400) (List.replicate n now) = [] := by
      unfold pruneWindow
      rw [List.filter_eq_nil_iff]
      intro a ha
      have ha' := List.eq_of_mem_replicate ha
      subst ha'
      simp only [decide_eq_true_eq, not_lt]
      omega
    rw [isRateLimited]
    simp only [forceExhaust, hminW, hdayW, List.length_nil]
    have g1 : ¬ s.maxRequestMin ≤ 0 := by omega
    have g2 : ¬ s.maxRequestDay ≤ 0 := by omega
    simp [g1, g2]

theorem lookupD_setA_self {α : Type} (l : List (String × α)) (k : String) (v d : α) :
    lookupD (setA l k v) k d = v := by
  induction l with
  | nil => simp [setA, lookupD]
  | cons p rest ih =>
    obtain ⟨pk, pv⟩ := p
    by_cases hp : pk = k
    · simp [setA, hp, lookupD]
    · simp [setA, hp, lookupD, ih]

theorem lookupD_setA_ne {α : Type} (l : List (String × α)) (k1 k2 : String) (v d : α)
    (h : k2 ≠ k1) : lookupD (setA l k1 v) k2 d = lookupD l k2 d := by
  have h' : ¬ k1 = k2 := fun e => h e.symm
  induction l with
  | nil => simp [setA, lookupD, h']
  | cons p rest ih =>
    obtain ⟨pk, pv⟩ := p
    by_cases hp : pk = k1
    · subst hp
      simp [setA, lookupD, h']
    · simp only [setA, if_neg hp, lookupD]
      by_cases hq : pk = k2
      · simp [hq]
      · simp [hq, ih]

theorem deniesAdmission_iff (s : Settings) (now : Int) (key : String) (st : ProviderState) :
    deniesAdmission s now key st = true ↔
      s.maxRequestMin ≤ (pruneWindow (now - 60) (lookupD st.minWindows key [])).length
      ∨ s.maxRequestDay ≤ (pruneWindow (now - 86400) (lookupD st.dayWindows key [])).length := by
  unfold deniesAdmission isRateLimitedFor
  by_cases h1 : s.maxRequestMin ≤ (pruneWindow (now - 60) (lookupD st.minWindows key [])).length <;>
    by_cases h2 : s.maxRequestDay ≤ (pruneWindow (now - 86400) (lookupD st.dayWindows key [])).length <;>
    simp [h1, h2]

theorem isRateLimitedFor_snd (s : Settings) (now : Int) (key : String) (st : ProviderState) :
    (isRateLimitedFor s now key st).2 =
      if s.maxRequestMin ≤ (pruneWindow (now - 60) (lookupD st.minWindows key [])).length then st
      else if s.maxRequestDay ≤ (pruneWindow (now - 86400) (lookupD st.dayWindows key [])).length then
        { st with
            minWindows := setA st.minWindows key (pruneWindow (now - 60) (lookupD st.minWindows key []) ++ [now]) }
      else
        { counts := incr st.counts key,
          minWindows := setA st.minWindows key (pruneWindow (now - 60) (lookupD st.minWindows key []) ++ [now]),
          dayWindows := setA st.dayWindows key (pruneWindow (now - 86400) (lookupD st.dayWindows key []) ++ [now]) } := by
  unfold isRateLimitedFor
  by_cases h1 : s.maxRequestMin ≤ (pruneWindow (now - 60) (lookupD st.minWindows key [])).length <;>
    by_cases h2 : s.maxRequestDay ≤ (pruneWindow (now - 86400) (lookupD st.dayWindows key [])).length <;>
    simp [h1, h2]

theorem deniesAdmission_preserved (s : Settings) (now : Int) (k k' : String)
    (st : ProviderState) (h : deniesAdmission s now k st = true) :
    deniesAdmission s now k (isRateLimitedFor s now k' st).2 = true := by
  rw [deniesAdmission_iff] at h
  rw [deniesAdmission_iff, isRateLimitedFor_snd]
  by_cases h1 : s.maxRequestMin ≤ (pruneWindow (now - 60) (lookupD st.minWindows k' [])).length
  · rw [if_pos h1]
    exact h
  · by_cases h2 : s.maxRequestDay ≤ (pruneWindow (now - 86400) (lookupD st.dayWindows k' [])).length
    · rw [if_neg h1, if_pos h2]
      by_cases hk : k' = k
      · subst hk
        have hd := h.resolve_left h1
        right
        simpa using hd
      · have e1 := lookupD_setA_ne st.minWindows k' k
          (pruneWindow (now - 60) (lookupD st.minWindows k' []) ++ [now]) [] (fun e => hk e.symm)
        simpa [e1] using h
    · rw [if_neg h1, if_neg h2]
      by_cases hk : k' = k
      · subst hk
        exact absurd (h.resolve_left h1) h2
      · have e1 := lookupD_setA_ne st.minWindows k' k
          (pruneWindow (now - 60) (lookupD st.minWindows k' []) ++ [now]) [] (fun e => hk e.symm)
        have e2 := lookupD_setA_ne st.dayWindows k' k
          (pruneWindow (now - 86400) (lookupD st.dayWindows k' []) ++ [now]) [] (fun e => hk e.symm)
        simpa [e1, e2] using h

theorem selectLoop_no_denied (g : Nat) (s : Settings) (now : Int) (keys : List String)
    (k : String) :
    ∀ (fuel cursor : Nat) (st : ProviderState), deniesAdmission s now k st = true →
      (selectLoop g s now keys fuel cursor st).1 ≠ some k := by
  intro fuel
  induction fuel with
  | zero =>
    intro cursor st _
    simp [selectLoop]
  | succ n ih =>
    intro cursor st h
    rw [selectLoop]
    by_cases hl : (isRateLimitedFor s now (keys.getD (cursor % keys.length) "") st).1 = true
    · simp only [hl, if_true]
      exact ih _ _ (deniesAdmission_preserved s now k _ st h)
    · simp only [Bool.not_eq_true] at hl
      simp only [hl, Bool.false_eq_true, if_false]
      by_cases hg : usageGapExceeded g
          ((isRateLimitedFor s now (keys.getD (cursor % keys.length) "") st).2).counts = true
      · simp only [hg, if_true]
        exact ih _ _ (deniesAdmission_preserved s now k _ st h)
      · simp only [Bool.not_eq_true] at hg
        simp only [hg, Bool.false_eq_true, if_false]
        intro hcontra
        have hkey := Option.some.inj hcontra
        rw [hkey] at hl
        rw [deniesAdmission] at h
        rw [h] at hl
        exact Bool.true_eq_false.mp hl

/-- C2 counterexample: with a single provider config (scan bound 1), two
keys of which `k1` (at the cursor) is day-exhausted, the selection loop
fails (the `for`-`else` 429 branch) even though `k2` passes the admission
check — refuting "with exactly two credentials of which one is exhausted,
selection always returns the other". -/
theorem c2_counterexample :
    (selectLoop 5 c2Settings 100 ["k1", "k2"] 1 0 c2State).1 = none
    ∧ deniesAdmission c2Settings 100 "k2" c2State = false := by
  decide

/-- C2 amended: selection never returns a credential that currently
fails the admission check (such a credential stays denied throughout the
scan and is never selected), and otherwise the loop answers `none`
(HTTP 429); but the scan is bounded by `len(provider_configs)`, so with
two credentials of which one is exhausted the other is returned only
when the bound and cursor let it be visited — e.g. with bound 2 starting
at the exhausted key. -/
theorem c2_amended_selection (g : Nat) (s : Settings) (now : Int) (keys : List String)
    (fuel cursor : Nat) (st : ProviderState) (k : String)
    (hden : deniesAdmission s now k st = true) :
    (selectLoop g s now keys fuel cursor st).1 ≠ some k
    ∧ (selectLoop 5 c2Settings 100 ["k1", "k2"] 2 0 c2State).1 = some "k2" :=
  ⟨selectLoop_no_denied g s now keys k fuel cursor st hden, by decide⟩

theorem c2_amended_selection_witness :
    deniesAdmission c2Settings 100 "k1" c2State = true
    ∧ (selectLoop 5 c2Settings 100 ["k1", "k2"] 1 0 c2State).1 ≠ some "k1" :=
  ⟨by decide,
   (c2_amended_selection 5 c2Settings 100 ["k1", "k2"] 1 0 c2State "k1" (by decide)).1⟩

/-- C6 counterexample: the least-used credential is `b` (counter 98 <
100) and `b` passes the admission check, but selection returns `a`, the
key at the pool cursor — main.py has no least-used fast path. -/
theorem c6_counterexample :
    specLeastUsedKey ["a", "b"] c6State.counts = some "b"
    ∧ deniesAdmission mainSettings 0 "b" c6State = false
    ∧ (selectLoop 5 mainSettings 0 ["a", "b"] 2 0 c6State).1 = some "a" := by
  decide

/-- C6 amended: key selection has no least-used fast path; it scans the
pool cyclically from the current cursor and returns the first key that
passes the admission check and the usage-gap guard, so the selected key
follows the cursor, not the lifetime counters. -/
theorem c6_amended_cursor_scan :
    (selectLoop 5 mainSettings 0 ["a", "b"] 2 0 c6State).1 = some "a"
    ∧ (selectLoop 5 mainSettings 0 ["a", "b"] 2 1 c6State).1 = some "b" := by
  decide

/-- C7 counterexample: with lifetime counts 100 and 0 and a 5% gap
threshold, the guard fires even for the 0-count key (the spread is
computed over the whole counts table after the candidate's increment),
and selection starting at the 0-count key returns nothing instead of
succeeding with it. -/
theorem c7_counterexample :
    usageGapExceeded 5 ((isRateLimitedFor mainSettings 0 "b" c7State).2).counts = true
    ∧ (selectLoop 5 mainSettings 0 ["a", "b"] 2 1 c7State).1 = none := by
  decide

/-- C7 amended: the usage-gap guard is evaluated after the candidate's
admission increment over the provider's whole counts table, independent
of which candidate is considered; with counts 100 and 0 and a 5%
threshold it rejects every candidate — including the 0-count key — and
selection fails (HTTP 429) from either cursor position. -/
theorem c7_amended_gap_guard :
    usageGapExceeded 5 ((isRateLimitedFor mainSettings 0 "a" c7State).2).counts = true
    ∧ usageGapExceeded 5 ((isRateLimitedFor mainSettings 0 "b" c7State).2).counts = true
    ∧ (selectLoop 5 mainSettings 0 ["a", "b"] 2 0 c7State).1 = none
    ∧ (selectLoop 5 mainSettings 0 ["a", "b"] 2 1 c7State).1 = none := by
  decide

theorem pruneWindow_replicate_now (now : Int) (n : Nat) :
    pruneWindow (now - 86400) (List.replicate n now) = List.replicate n now := by
  unfold pruneWindow
  rw [List.filter_eq_self]
  intro a ha
  have ha' := List.eq_of_mem_replicate ha
  subst ha'
  simp only [decide_eq_true_eq]
  omega

/-- C5 counterexample: the error text "Rate limit exceeded: free tier"
matches an openrouter quota pattern, yet the dispatch functions defined
in main.py — the ones `proxy_chat` actually calls — answer HTTP 500 and
leave the rate-limiter state untouched, instead of forcing the day
window and answering HTTP 429 as the claim requires. -/
theorem c5_counterexample :
    quotaPatternMatch "openrouter" "Rate limit exceeded: free tier" = true
    ∧ (mainDispatchFailure "openrouter" "k" "Rate limit exceeded: free tier" c5Handle).1 = 500
    ∧ (mainDispatchFailure "openrouter" "k" "Rate limit exceeded: free tier" c5Handle).2 = c5Handle := by
  decide

/-- C5 amended: the claimed behaviour holds for the dispatch functions
in providers.py when a rate limiter is supplied — a quota-matching error
forces the credential's day window to `max_request_day` copies of `now`
(a state every admission check denies) and surfaces HTTP 429, a
non-matching error surfaces HTTP 500 with no state change — while the
duplicate dispatch in main.py answers HTTP 500 with no state change for
every failure, quota-matching or not. -/
theorem c5_amended_dispatch (provider key errorMsg : String) (now : Int) (rl : LimiterHandle) :
    (quotaPatternMatch provider errorMsg = true →
      providersDispatchFailure provider key errorMsg now (some rl) =
        (429, some { rl with windows := setA rl.windows (dayKey provider key) (List.replicate (lookupD rl.settings provider ⟨0, 0, 0⟩).maxRequestDay now) }))
    ∧ (quotaPatternMatch provider errorMsg = false →
      providersDispatchFailure provider key errorMsg now (some rl) = (500, some rl))
    ∧ (quotaPatternMatch provider errorMsg = true →
      ∀ (mw : List Int) (c : Nat) (pers : List Int × List Int × Nat),
        (isRateLimited (lookupD rl.settings provider ⟨0, 0, 0⟩) now
          ⟨mw, List.replicate (lookupD rl.settings provider ⟨0, 0, 0⟩).maxRequestDay now, c, pers⟩).1 = true)
    ∧ mainDispatchFailure provider key errorMsg rl = (500, rl) := by
  refine ⟨?_, ?_, ?_, rfl⟩
  · intro hq
    simp [providersDispatchFailure, updateRateLimits, hq]
  · intro hq
    simp [providersDispatchFailure, updateRateLimits, hq]
  · intro _ mw c pers
    by_cases h1 : (lookupD rl.settings provider ⟨0, 0, 0⟩).maxRequestMin ≤
        (pruneWindow (now - 60) mw).length
    · rw [isRateLimited]
      simp [h1]
    · rw [isRateLimited]
      simp [h1, pruneWindow_replicate_now]

theorem c5_amended_dispatch_witness :
    quotaPatternMatch "openrouter" "Rate limit exceeded: free tier" = true
    ∧ providersDispatchFailure "openrouter" "k" "Rate limit exceeded: free tier" 0 (some c5Handle) =
        (429, some { c5Handle with windows := setA c5Handle.windows (dayKey "openrouter" "k") (List.replicate (lookupD c5Handle.settings "openrouter" ⟨0, 0, 0⟩).maxRequestDay 0) }) :=
  ⟨by decide,
   (c5_amended_dispatch "openrouter" "k" "Rate limit exceeded: free tier" 0 c5Handle).1 (by decide)⟩

theorem getLast?_append_single {α : Type} (l : List α) (a : α) :
    (l ++ [a]).getLast? = some a :=
  List.getLast?_concat l

theorem dataBrace_ne_done (x : String) : ("data: \x7b" ++ x) ≠ doneFrame := by
  intro h
  have h7 : (['d', 'a', 't', 'a', ':', ' ', '\x7b'] : List Char)
      = ['d', 'a', 't', 'a', ':', ' ', '['] :=
    congrArg (fun z : String => z.data.take 7) h
  exact absurd h7 (by decide)

theorem contentFrame_ne_done (i : Nat) (s : String) : contentFrame i s ≠ doneFrame :=
  dataBrace_ne_done _

theorem toolFrame_ne_done (i : Nat) (tcs : List ToolCall) : toolFrame i tcs ≠ doneFrame :=
  dataBrace_ne_done _

theorem timeoutFrame_ne_done : timeoutFrame ≠ doneFrame :=
  dataBrace_ne_done _

theorem keepaliveFrame_ne_done : keepaliveFrame ≠ doneFrame := by
  decide

theorem formatStreamChunk_some (c : Chunk) (f : String)
    (h : formatStreamChunk c = .ok (some f)) :
    (∃ i s, f = contentFrame i s) ∨ (∃ i tcs, f = toolFrame i tcs) := by
  cases c with
  | malformed => simp [formatStreamChunk] at h
  | delta i co tools =>
    cases co with
    | none =>
      by_cases ht : tools.isEmpty
      · simp [formatStreamChunk, ht] at h
      · simp [formatStreamChunk, ht] at h
        exact Or.inr ⟨i, tools, h.symm⟩
    | some s =>
      by_cases hs : s = ""
      · by_cases ht : tools.isEmpty
        · simp [formatStreamChunk, hs, ht] at h
        · simp [formatStreamChunk, hs, ht] at h
          exact Or.inr ⟨i, tools, h.symm⟩
      · simp [formatStreamChunk, hs] at h
        exact Or.inl ⟨i, s, h.symm⟩

theorem formatted_ne_done (c : Chunk) (f : String)
    (h : formatStreamChunk c = .ok (some f)) : f ≠ doneFrame := by
  rcases formatStreamChunk_some c f h with ⟨i, s, rfl⟩ | ⟨i, tcs, rfl⟩
  · exact contentFrame_ne_done i s
  · exact toolFrame_ne_done i tcs

theorem relayGo_ne_done : ∀ (items : List (Int × Chunk)) (ly : Int) (f : String),
    f ∈ relayGo items ly → f ≠ doneFrame := by
  intro items
  induction items with
  | nil =>
    intro ly f h
    simp [relayGo] at h
  | cons p rest ih =>
    intro ly f h
    obtain ⟨t, c⟩ := p
    rw [relayGo] at h
    by_cases htime : 300 < t - ly
    · rw [if_pos htime] at h
      simp at h
      subst h
      exact timeoutFrame_ne_done
    · rw [if_neg htime] at h
      cases hfc : formatStreamChunk c with
      | error u =>
        rw [hfc] at h
        by_cases hk : 5 < t - ly
        · simp [hk] at h
          subst h
          exact keepaliveFrame_ne_done
        · simp [hk] at h
      | ok o =>
        cases o with
        | some fr =>
          rw [hfc] at h
          simp at h
          rcases h with h | h
          · subst h
            exact formatted_ne_done c f hfc
          · exact ih t f h
        | none =>
          rw [hfc] at h
          by_cases hk : 5 < t - ly
          · rw [if_pos hk] at h
            simp at h
            rcases h with h | h
            · subst h
              exact keepaliveFrame_ne_done
            · exact ih t f h
          · rw [if_neg hk] at h
            exact ih ly f h

theorem relayGo_count_done (items : List (Int × Chunk)) (ly : Int) :
    (relayGo items ly).count doneFrame = 0 := by
  rw [List.count_eq_zero]
  intro h
  exact relayGo_ne_done items ly doneFrame h rfl

/-- C8: the relay's output always ends with the sentinel frame
`"data: [DONE]\n\n"`, which occurs exactly once, whether the source ends
normally, is empty, or raises; and a source of exactly three well-formed
content chunks (arriving within the 300 s timeout) produces exactly the
three content frames in source order followed by the single sentinel and
nothing else. -/
theorem c8_stream_frames :
    (∀ (start : Int) (items : List (Int × Chunk)) (sourceRaises : Bool),
      (streamResponse start items sourceRaises).getLast? = some doneFrame
      ∧ (streamResponse start items sourceRaises).count doneFrame = 1)
    ∧ (∀ (start t1 t2 t3 : Int) (i1 i2 i3 : Nat) (s1 s2 s3 : String)
        (tc1 tc2 tc3 : List ToolCall) (sourceRaises : Bool),
        s1 ≠ "" → s2 ≠ "" → s3 ≠ "" →
        t1 - start ≤ 300 → t2 - t1 ≤ 300 → t3 - t2 ≤ 300 →
        streamResponse start
            [(t1, Chunk.delta i1 (some s1) tc1), (t2, Chunk.delta i2 (some s2) tc2),
              (t3, Chunk.delta i3 (some s3) tc3)] sourceRaises
          = [contentFrame i1 s1, contentFrame i2 s2, contentFrame i3 s3, doneFrame]) := by
  constructor
  · intro start items sourceRaises
    refine ⟨getLast?_append_single _ _, ?_⟩
    rw [streamResponse, List.count_append, relayGo_count_done]
    simp
  · intro start t1 t2 t3 i1 i2 i3 s1 s2 s3 tc1 tc2 tc3 sourceRaises hs1 hs2 hs3 h1 h2 h3
    have hf1 : formatStreamChunk (Chunk.delta i1 (some s1) tc1)
        = Except.ok (some (contentFrame i1 s1)) := by simp [formatStreamChunk, hs1]
    have hf2 : formatStreamChunk (Chunk.delta i2 (some s2) tc2)
        = Except.ok (some (contentFrame i2 s2)) := by simp [formatStreamChunk, hs2]
    have hf3 : formatStreamChunk (Chunk.delta i3 (some s3) tc3)
        = Except.ok (some (contentFrame i3 s3)) := by simp [formatStreamChunk, hs3]
    have ht1 : ¬ 300 < t1 - start := by omega
    have ht2 : ¬ 300 < t2 - t1 := by omega
    have ht3 : ¬ 300 < t3 - t2 := by omega
    simp [streamResponse, relayGo, hf1, hf2, hf3, ht1, ht2, ht3]

theorem c8_stream_frames_witness :
    streamResponse 0
        [(1, Chunk.delta 0 (some "Hi") []), (2, Chunk.delta 0 (some "!") []),
          (3, Chunk.delta 1 (some "?") [])] false
      = [contentFrame 0 "Hi", contentFrame 0 "!", contentFrame 1 "?", doneFrame] :=
  c8_stream_frames.2 0 1 2 3 0 0 1 "Hi" "!" "?" [] [] [] false (by decide) (by decide)
    (by decide) (by decide) (by decide) (by decide)

/-- C9: on the failing input — a malformed chunk at t = 1 s followed by
a well-formed content chunk at t = 2 s — the relay does not skip the
malformed chunk and continue: handling the chunk error raises `NameError`
(providers.py line 132 references `httpx`, which the module never
imports), the loop aborts, and the output is only the sentinel; the
would-be content frame of the second chunk is never emitted, although
`format_stream_chunk` would format it. -/
theorem c9_malformed_chunk_aborts_relay :
    formatStreamChunk (Chunk.delta 0 (some "hi") []) = Except.ok (some (contentFrame 0 "hi"))
    ∧ streamResponse 0 [(1, Chunk.malformed), (2, Chunk.delta 0 (some "hi") [])] false
        = [doneFrame]
    ∧ contentFrame 0 "hi"
        ∉ streamResponse 0 [(1, Chunk.malformed), (2, Chunk.delta 0 (some "hi") [])] false := by
  have he : streamResponse 0 [(1, Chunk.malformed), (2, Chunk.delta 0 (some "hi") [])] false
      = [doneFrame] := by decide
  refine ⟨by simp [formatStreamChunk], he, ?_⟩
  rw [he]
  simp only [List.mem_singleton]
  exact contentFrame_ne_done 0 "hi"

theorem c4_force_exhaust_witness :
    (isRateLimited ⟨3, 150000, 1⟩ 0 (forceExhaust 3 0 ⟨[], [], 0, ([], [], 0)⟩)).1 = true
    ∧ (isRateLimited ⟨3, 150000, 1⟩ 86401 (forceExhaust 3 0 ⟨[], [], 0, ([], [], 0)⟩)).1 = false :=
  ⟨(c4_force_exhaust ⟨3, 150000, 1⟩ 0 86401 ⟨[], [], 0, ([], [], 0)⟩ 3 rfl (by decide)
      (by decide) (by decide) (by simp)).2.1,
   (c4_force_exhaust ⟨3, 150000, 1⟩ 0 86401 ⟨[], [], 0, ([], [], 0)⟩ 3 rfl (by decide)
      (by decide) (by decide) (by simp)).2.2⟩

theorem isRateLimitedFor_fresh (s : Settings) (now : Int) (k : String)
    (h1 : 1 ≤ s.maxRequestMin) (h2 : 1 ≤ s.maxRequestDay) :
    isRateLimitedFor s now k ⟨[], [], []⟩
      = (false, ⟨[(k, 1)], [(k, [now])], [(k, [now])]⟩) := by
  have hm : ¬ s.maxRequestMin ≤ 0 := by omega
  have hd : ¬ s.maxRequestDay ≤ 0 := by omega
  unfold isRateLimitedFor
  simp [lookupD, pruneWindow, setA, incr, hm, hd]

theorem isRateLimitedFor_second (s : Settings) (now : Int) (k : String)
    (h1 : 2 ≤ s.maxRequestMin) (h2 : 2 ≤ s.maxRequestDay) :
    isRateLimitedFor s now k ⟨[(k, 1)], [(k, [now])], [(k, [now])]⟩
      = (false, ⟨[(k, 2)], [(k, [now, now])], [(k, [now, now])]⟩) := by
  have hmw : (now : Int) - 60 < now := by omega
  have hdw : (now : Int) - 86400 < now := by omega
  have hm : ¬ s.maxRequestMin ≤ 1 := by omega
  have hd : ¬ s.maxRequestDay ≤ 1 := by omega
  unfold isRateLimitedFor
  simp [lookupD, pruneWindow, setA, incr, hmw, hdw, hm, hd]

theorem usageGapExceeded_single (g : Nat) (k : String) (c : Nat) :
    usageGapExceeded g [(k, c)] = false := rfl

/-- C10: a successfully routed and dispatched `"auto-model"` request
consumes two admissions, not one.  With one configured provider entry
`("openrouter", [k])`, an `auto_models` list `[m]` resolving to
openrouter, a fresh state, and per-minute/per-day ceilings of at least
2, resolving the auto model already appends the timestamp to both
windows of `k` and sets its lifetime counter to 1, and the coordinator's
subsequent key-selection loop admits `k` a second time, leaving counter
2 and two timestamps in each window. -/
theorem c10_auto_model_double_admission (m k : String) (g : Nat) (sOr sGem : Settings)
    (now : Int) (hm : isPrefixOfCh "gemini".data m.data = false)
    (h1 : 2 ≤ sOr.maxRequestMin) (h2 : 2 ≤ sOr.maxRequestDay) :
    selectNextAvailableModel [("openrouter", [k])] g sOr sGem now [m] emptySys
      = (some m, { emptySys with orState := ⟨[(k, 1)], [(k, [now])], [(k, [now])]⟩ })
    ∧ autoFlow [("openrouter", [k])] g sOr sGem now [m] emptySys
      = (some (m, k),
         { emptySys with orState := ⟨[(k, 2)], [(k, [now, now])], [(k, [now, now])]⟩,
                         orCursor := 1 }) := by
  have hp : getProviderFromModel m = "openrouter" := by
    simp [getProviderFromModel, hm]
  have hfresh := isRateLimitedFor_fresh sOr now k (by omega) (by omega)
  have hsecond := isRateLimitedFor_second sOr now k (by omega) (by omega)
  have hroute : selectNextAvailableModel [("openrouter", [k])] g sOr sGem now [m] emptySys
      = (some m, { emptySys with orState := ⟨[(k, 1)], [(k, [now])], [(k, [now])]⟩ }) := by
    simp [selectNextAvailableModel, hp, settingsFor, tryCfgs, tryKeys, getPS, setPS,
      emptySys, hfresh, usageGapExceeded_single]
  refine ⟨hroute, ?_⟩
  rw [autoFlow, hroute]
  simp [hp, settingsFor, keysOfProvider, cursorOf, getPS, setPS, setCursor, emptySys,
    selectLoop, hsecond, usageGapExceeded_single]

theorem c10_auto_model_double_admission_witness :
    autoFlow [("openrouter", ["key1"])] 5 mainSettings mainSettings 0 ["m"] emptySys
      = (some ("m", "key1"),
         { emptySys with orState := ⟨[("key1", 2)], [("key1", [0, 0])], [("key1", [0, 0])]⟩,
                         orCursor := 1 }) :=
  (c10_auto_model_double_admission "m" "key1" 5 mainSettings mainSettings 0 (by decide)
    (by decide) (by decide)).2

end AiApiProxy
